import Mathlib

/-!
# Weather lookup widget (`src/App.jsx`)

A shallow embedding of the `App` component: its four state cells, the
`fetchWeather` and `clearSearch` handlers, and the expressions of the
dashboard that shape the stored payload for display.

JavaScript strings are sequences of UTF-16 code units, JSON payloads are a
small value type, and every effect of a handler (a state setter or a network
call) is recorded in a trace in program order.
-/

set_option autoImplicit false
set_option maxRecDepth 8000

namespace Weather

/-! ## Strings -/

/-- A JavaScript string: the list of its UTF-16 code units (each below `65536`). -/
abbrev JSString := List Nat

/-- The UTF-16 code units of one Unicode scalar value. -/
def utf16Char (c : Char) : List Nat :=
  if c.toNat < 0x10000 then [c.toNat]
  else [0xD800 + (c.toNat - 0x10000) / 0x400, 0xDC00 + (c.toNat - 0x10000) % 0x400]

/-- The JavaScript string denoted by a string literal of the source. -/
def lit (s : String) : JSString := (s.toList.map utf16Char).flatten

/-- ECMAScript `WhiteSpace` and `LineTerminator` code units, the ones
`String.prototype.trim` strips. -/
def isWhiteSpace (u : Nat) : Bool :=
  u == 0x09 || u == 0x0A || u == 0x0B || u == 0x0C || u == 0x0D || u == 0x20 ||
  u == 0xA0 || u == 0x1680 || (0x2000 ≤ u && u ≤ 0x200A) || u == 0x2028 ||
  u == 0x2029 || u == 0x202F || u == 0x205F || u == 0x3000 || u == 0xFEFF

/-- `String.prototype.trimStart`. -/
def trimStart (s : JSString) : JSString := s.dropWhile isWhiteSpace

/-- `String.prototype.trimEnd`. -/
def trimEnd (s : JSString) : JSString := (s.reverse.dropWhile isWhiteSpace).reverse

/-- `String.prototype.trim`. -/
def trim (s : JSString) : JSString := trimEnd (trimStart s)

/-- Errors a JavaScript expression of the component can throw. -/
inductive JSError
  | typeError
  | uriError
  | invalidChild
  deriving DecidableEq, Repr

/-- Code units `encodeURIComponent` copies unchanged: ASCII letters, digits
and the marks `- _ . ! ~ * ' ( )`. -/
def isUnescaped (u : Nat) : Bool :=
  (0x41 ≤ u && u ≤ 0x5A) || (0x61 ≤ u && u ≤ 0x7A) || (0x30 ≤ u && u ≤ 0x39) ||
  u == 0x2D || u == 0x5F || u == 0x2E || u == 0x21 || u == 0x7E || u == 0x2A ||
  u == 0x27 || u == 0x28 || u == 0x29

def isHighSurrogate (u : Nat) : Bool := 0xD800 ≤ u && u ≤ 0xDBFF

def isLowSurrogate (u : Nat) : Bool := 0xDC00 ≤ u && u ≤ 0xDFFF

/-- The UTF-8 octets of a code point. -/
def utf8 (cp : Nat) : List Nat :=
  if cp < 0x80 then [cp]
  else if cp < 0x800 then [0xC0 + cp / 0x40, 0x80 + cp % 0x40]
  else if cp < 0x10000 then [0xE0 + cp / 0x1000, 0x80 + cp / 0x40 % 0x40, 0x80 + cp % 0x40]
  else [0xF0 + cp / 0x40000, 0x80 + cp / 0x1000 % 0x40, 0x80 + cp / 0x40 % 0x40,
        0x80 + cp % 0x40]

/-- One uppercase hexadecimal digit, as a code unit. -/
def hexDigit (d : Nat) : Nat := if d < 10 then 0x30 + d else 0x41 + (d - 10)

/-- The escape `%XY` of one octet. -/
def percent (octet : Nat) : JSString := [0x25, hexDigit (octet / 16), hexDigit (octet % 16)]

/-- The escapes of the UTF-8 octets of a code point. -/
def escapeCodePoint (cp : Nat) : JSString := ((utf8 cp).map percent).flatten

/-- The global `encodeURIComponent`: unescaped units are copied, every other
code point is replaced by the escapes of its UTF-8 octets, and a surrogate
without its partner throws `URIError`. -/
def encodeURIComponent : JSString → Except JSError JSString
  | [] => .ok []
  | c :: rest =>
    if isUnescaped c then
      match encodeURIComponent rest with
      | .ok r => .ok (c :: r)
      | .error e => .error e
    else if isHighSurrogate c then
      match rest with
      | [] => .error .uriError
      | d :: rest2 =>
        if isLowSurrogate d then
          match encodeURIComponent rest2 with
          | .ok r => .ok (escapeCodePoint (0x10000 + (c - 0xD800) * 0x400 + (d - 0xDC00)) ++ r)
          | .error e => .error e
        else .error .uriError
    else if isLowSurrogate c then .error .uriError
    else
      match encodeURIComponent rest with
      | .ok r => .ok (escapeCodePoint c ++ r)
      | .error e => .error e

/-! ## Values -/

/-- A JavaScript number: a finite value (taken as an exact rational), or one
of the three non-finite values. -/
inductive JSNumber
  | nan
  | posInf
  | negInf
  | fin (q : ℚ)

/-- The values the component handles: parsed JSON, plus `undefined`, which
property access on parsed JSON produces. An object is the list of its own
properties; the first entry of a key is the property. -/
inductive JSValue
  | undefined
  | null
  | bool (b : Bool)
  | num (n : JSNumber)
  | str (s : JSString)
  | arr (xs : List JSValue)
  | obj (fields : List (JSString × JSValue))

/-- What `await fetch(url)` followed by `await res.json()` can do: the request
rejects, or a response with an HTTP status arrives whose body either parses
to a value or makes `json()` reject. -/
inductive FetchOutcome
  | rejected
  | response (status : Nat) (body : Option JSValue)

/-- The two numeric conversions of the language whose algorithms are not
reproduced here; every result below holds whatever they return. -/
structure Numerics where
  /-- `Number::toString` on finite numbers that are not integers of magnitude below `2^53`. -/
  fractionToString : ℚ → JSString
  /-- `StringToNumber`, the numeric reading of a string. -/
  stringToNumber : JSString → JSNumber

/-- The host the component runs in: the network behind `fetch`, the build-time
environment and the language runtime. -/
structure Host where
  /-- Outcome of `fetch(url)` followed by `.json()` on the response. -/
  fetch : JSString → FetchOutcome
  /-- Value of `import.meta.env.VITE_WEATHER_API_KEY`: a string, or `undefined`. -/
  apiKey : Option JSString
  numerics : Numerics

/-- Decimal digits of a natural number, as code units. -/
def decimal (n : Nat) : JSString := (Nat.toDigits 10 n).map Char.toNat

/-- `Number::toString` (radix 10). An integer of magnitude below `2^53` is
printed with all its digits; the digits of any other finite number are those
of the nearest double and are left to `fractionToString`. -/
def numberToString (n : Numerics) : JSNumber → JSString
  | .nan => lit "NaN"
  | .posInf => lit "Infinity"
  | .negInf => lit "-Infinity"
  | .fin q =>
    if q.den = 1 ∧ q.num.natAbs < 2 ^ 53 then
      if q.num < 0 then lit "-" ++ decimal q.num.natAbs else decimal q.num.natAbs
    else n.fractionToString q

/-- Own property lookup in a parsed object. -/
def lookup (k : JSString) : List (JSString × JSValue) → Option JSValue
  | [] => none
  | (k2, v) :: rest => if k2 = k then some v else lookup k rest

mutual
/-- The abstract operation `ToString`, as applied by template literals. A parsed
object carrying an own `toString` member (never callable) has no primitive value,
so the conversion throws `TypeError`. -/
def toStr (n : Numerics) : JSValue → Except JSError JSString
  | .undefined => .ok (lit "undefined")
  | .null => .ok (lit "null")
  | .bool b => .ok (if b then lit "true" else lit "false")
  | .num x => .ok (numberToString n x)
  | .str s => .ok s
  | .arr xs => joinElems n xs
  | .obj fields =>
    match lookup (lit "toString") fields with
    | some _ => .error .typeError
    | none => .ok (lit "[object Object]")
/-- `Array.prototype.join` with the default separator: `undefined` and `null`
elements contribute the empty string. -/
def joinElems (n : Numerics) : List JSValue → Except JSError JSString
  | [] => .ok []
  | x :: rest =>
    match (match x with
           | .undefined => Except.ok []
           | .null => Except.ok []
           | v => toStr n v) with
    | .error e => .error e
    | .ok a =>
      match rest with
      | [] => .ok a
      | _ :: _ =>
        match joinElems n rest with
        | .error e => .error e
        | .ok b => .ok (a ++ lit "," ++ b)
end

/-- The abstract operation `ToNumber`. An array or object is first brought to
a primitive through its string form. -/
def toNumber (n : Numerics) : JSValue → Except JSError JSNumber
  | .undefined => .ok .nan
  | .null => .ok (.fin 0)
  | .bool b => .ok (.fin (if b then 1 else 0))
  | .num x => .ok x
  | .str s => .ok (n.stringToNumber s)
  | v =>
    match toStr n v with
    | .error e => .error e
    | .ok s => .ok (n.stringToNumber s)

/-- `Math.round` on a number: the nearest integer, halves going up; the
non-finite values are returned unchanged. -/
def roundNumber : JSNumber → JSNumber
  | .fin q => .fin (⌊q + 1 / 2⌋ : ℤ)
  | x => x

/-- `Math.round(v)` on any value. -/
def Math.round (n : Numerics) (v : JSValue) : Except JSError JSValue :=
  match toNumber n v with
  | .error e => .error e
  | .ok x => .ok (.num (roundNumber x))

/-- Truthiness (`ToBoolean`). -/
def truthy : JSValue → Bool
  | .undefined => false
  | .null => false
  | .bool b => b
  | .num .nan => false
  | .num (.fin q) => decide (q ≠ 0)
  | .num _ => true
  | .str s => !s.isEmpty
  | .arr _ => true
  | .obj _ => true

/-- Whether a value is `undefined` or `null`. -/
def isNullish : JSValue → Bool
  | .undefined => true
  | .null => true
  | _ => false

/-- The operator `a || b`. -/
def orElse (a b : JSValue) : JSValue := if truthy a then a else b

/-- The operator `a ?? b`. -/
def coalesce (a b : JSValue) : JSValue := if isNullish a then b else a

/-- The value of `v.k` for a value `v` that is neither `undefined` nor `null`
and a key `k` the component reads by name (`length` or a field of the payload;
none of them is an array index or an inherited method). -/
def member (v : JSValue) (k : JSString) : JSValue :=
  match v with
  | .arr xs => if k = lit "length" then .num (.fin (xs.length : ℚ)) else .undefined
  | .str s => if k = lit "length" then .num (.fin (s.length : ℚ)) else .undefined
  | .obj fields => (lookup k fields).getD .undefined
  | _ => .undefined

/-- The value of `v[i]` for a value `v` that is neither `undefined` nor `null`. -/
def element (v : JSValue) (i : Nat) : JSValue :=
  match v with
  | .arr xs => (xs.get? i).getD .undefined
  | .str s => match s.get? i with
    | some u => .str [u]
    | none => .undefined
  | .obj fields => (lookup (decimal i) fields).getD .undefined
  | _ => .undefined

/-- Property access `v.k`: throws `TypeError` on `undefined` and `null`. -/
def getProp (v : JSValue) (k : JSString) : Except JSError JSValue :=
  if isNullish v then .error .typeError else .ok (member v k)

/-- Indexed access `v[i]`: throws `TypeError` on `undefined` and `null`. -/
def getElem (v : JSValue) (i : Nat) : Except JSError JSValue :=
  if isNullish v then .error .typeError else .ok (element v i)

/-- Optional access `v?.k`. -/
def optProp (v : JSValue) (k : JSString) : JSValue :=
  if isNullish v then .undefined else member v k

/-- Optional indexed access `v?.[i]`. -/
def optElem (v : JSValue) (i : Nat) : JSValue :=
  if isNullish v then .undefined else element v i

/-! ## State and effects -/

/-- The four `useState` cells of `App`. -/
structure AppState where
  city : JSString
  weather : JSValue
  error : JSString
  isLoading : Bool

/-- The initial values of the four cells. -/
def initialState : AppState := ⟨[], .null, [], false⟩

/-- The two remote services, told apart by the call site of `fetch`. -/
inductive Collaborator
  | geocoding
  | oneCall
  deriving DecidableEq

/-- One observable step of a handler. -/
inductive Effect
  | setCity (v : JSString)
  | setWeather (v : JSValue)
  | setError (v : JSString)
  | setIsLoading (v : Bool)
  | call (c : Collaborator) (url : JSString)

/-- The state after one effect; a network call leaves the cells alone. -/
def Effect.apply (s : AppState) : Effect → AppState
  | .setCity v => { s with city := v }
  | .setWeather v => { s with weather := v }
  | .setError v => { s with error := v }
  | .setIsLoading v => { s with isLoading := v }
  | .call _ _ => s

/-- The state after a trace of effects. -/
def run (s : AppState) (t : List Effect) : AppState := t.foldl Effect.apply s

/-- The URLs requested from one collaborator in a trace, in order. -/
def calls (c : Collaborator) : List Effect → List JSString
  | [] => []
  | .call c2 url :: rest => if c2 = c then url :: calls c rest else calls c rest
  | _ :: rest => calls c rest

/-- How a block of statements ends. -/
inductive Completion
  | normal
  | returned
  | thrown
  deriving DecidableEq

/-- The text of the API key inside a template literal. -/
def apiKeyText (h : Host) : JSString := h.apiKey.getD (lit "undefined")

/-- The geocoding request of line 21, given the escaped query. -/
def geocodingUrl (h : Host) (q : JSString) : JSString :=
  lit "https://api.openweathermap.org/geo/1.0/direct?q=" ++ q ++ lit "&limit=1&appid=" ++
    apiKeyText h

/-- The One Call request of line 37, given the texts of `lat` and `lon`. -/
def oneCallUrl (h : Host) (lat lon : JSString) : JSString :=
  lit "https://api.openweathermap.org/data/2.5/onecall?lat=" ++ lat ++ lit "&lon=" ++ lon ++
    lit "&exclude=minutely,alerts&units=metric&appid=" ++ apiKeyText h

/-- Lines 36 to 41: the weather request for the coordinates and the store of
its payload. -/
def fetchOneCall (h : Host) (lat lon : JSValue) : List Effect × Completion :=
  match toStr h.numerics lat with
  | .error _ => ([], .thrown)
  | .ok latText =>
    match toStr h.numerics lon with
    | .error _ => ([], .thrown)
    | .ok lonText =>
      match h.fetch (oneCallUrl h latText lonText) with
      | .rejected => ([.call .oneCall (oneCallUrl h latText lonText)], .thrown)
      | .response _ none => ([.call .oneCall (oneCallUrl h latText lonText)], .thrown)
      | .response _ (some weatherData) =>
        ([.call .oneCall (oneCallUrl h latText lonText), .setWeather weatherData], .normal)

/-- Lines 27 to 41: what the handler does with the parsed geocoding payload. -/
def afterGeocoding (h : Host) (geoData : JSValue) : List Effect × Completion :=
  match getProp geoData (lit "length") with
  | .error _ => ([], .thrown)
  | .ok len =>
    if !truthy len then ([.setError (lit "City not found"), .setIsLoading false], .returned)
    else
      match getElem geoData 0 with
      | .error _ => ([], .thrown)
      | .ok first =>
        if isNullish first then ([], .thrown)
        else fetchOneCall h (member first (lit "lat")) (member first (lit "lon"))

/-- The `try` block of `fetchWeather` (lines 19 to 41). -/
def tryBlock (h : Host) (city : JSString) : List Effect × Completion :=
  match encodeURIComponent city with
  | .error _ => ([], .thrown)
  | .ok q =>
    match h.fetch (geocodingUrl h q) with
    | .rejected => ([.call .geocoding (geocodingUrl h q)], .thrown)
    | .response _ none => ([.call .geocoding (geocodingUrl h q)], .thrown)
    | .response _ (some geoData) =>
      (.call .geocoding (geocodingUrl h q) :: (afterGeocoding h geoData).1,
        (afterGeocoding h geoData).2)

/-- The `catch` clause (line 43). -/
def catchBlock : Completion → List Effect
  | .thrown => [.setError (lit "Failed to fetch weather data")]
  | _ => []

/-- The handler `fetchWeather`, as the trace of its effects when run to
completion from state `s`. -/
def fetchWeather (h : Host) (s : AppState) : List Effect :=
  if !truthy (.str (trim s.city)) then []
  else
    [.setIsLoading true, .setError [], .setWeather .null] ++ (tryBlock h s.city).1 ++
      catchBlock (tryBlock h s.city).2 ++ [.setIsLoading false]

/-- The handler `clearSearch`. -/
def clearSearch : List Effect := [.setWeather .null, .setCity [], .setError []]

/-! ## Display -/

mutual
/-- The text React produces for one child of an element: strings and numbers
as text, `undefined`, `null` and booleans as nothing, arrays child by child;
an object is refused. -/
def renderChild (n : Numerics) : JSValue → Except JSError JSString
  | .undefined => .ok []
  | .null => .ok []
  | .bool _ => .ok []
  | .num x => .ok (numberToString n x)
  | .str s => .ok s
  | .arr xs => renderChildren n xs
  | .obj _ => .error .invalidChild
/-- The text of a list of children, in order. -/
def renderChildren (n : Numerics) : List JSValue → Except JSError JSString
  | [] => .ok []
  | x :: rest =>
    match renderChild n x with
    | .error e => .error e
    | .ok a =>
      match renderChildren n rest with
      | .error e => .error e
      | .ok b => .ok (a ++ b)
end

/-- The test of line 57: whether the render takes the dashboard branch rather
than the search form. Taking the branch does not mean the dashboard appears:
evaluating the branch can still throw (see `renderDashboard`). -/
def takesDashboardBranch (s : AppState) : Bool := truthy s.weather

/-- The interpolated icon code of the current conditions (line 103):
`weather?.current?.weather?.[0]?.icon || "01d"`. -/
def currentIcon (weather : JSValue) : JSValue :=
  orElse
    (optProp (optElem (optProp (optProp weather (lit "current")) (lit "weather")) 0) (lit "icon"))
    (.str (lit "01d"))

/-- The `src` of the current-conditions image (lines 102 to 104). -/
def currentIconSrc (n : Numerics) (weather : JSValue) : Except JSError JSString :=
  match toStr n (currentIcon weather) with
  | .error e => .error e
  | .ok icon => .ok (lit "https://openweathermap.org/img/wn/" ++ icon ++ lit "@2x.png")

/-- The interpolated icon code of one hourly or daily entry (lines 154 and
179): `hour.weather[0]?.icon`. -/
def entryIcon (entry : JSValue) : Except JSError JSValue :=
  match getProp entry (lit "weather") with
  | .error e => .error e
  | .ok list =>
    match getElem list 0 with
    | .error e => .error e
    | .ok first => .ok (optProp first (lit "icon"))

/-- The `src` of the image of one hourly or daily entry (lines 154 and 179). -/
def entryIconSrc (n : Numerics) (entry : JSValue) : Except JSError JSString :=
  match entryIcon entry with
  | .error e => .error e
  | .ok icon =>
    match toStr n icon with
    | .error e => .error e
    | .ok text => .ok (lit "https://openweathermap.org/img/wn/" ++ text ++ lit ".png")

/-- The receiver of `.map` in `v?.slice(0, k).map(...)`: nothing when `v` is
`undefined` or `null`, the first `k` elements of an array, and a `TypeError`
for any other value (it has no callable `slice` or `map`). -/
def sliceForMap (v : JSValue) (k : Nat) : Except JSError (List JSValue) :=
  match v with
  | .undefined => .ok []
  | .null => .ok []
  | .arr xs => .ok (xs.take k)
  | _ => .error .typeError

/-- The entries of the hourly strip (line 141). -/
def hourlyEntries (weather : JSValue) : Except JSError (List JSValue) :=
  sliceForMap (optProp weather (lit "hourly")) 24

/-- The entries of the 7-day strip (line 167). -/
def dailyEntries (weather : JSValue) : Except JSError (List JSValue) :=
  sliceForMap (optProp weather (lit "daily")) 7

/-- The text of the large temperature paragraph (line 108). -/
def temperatureText (n : Numerics) (weather : JSValue) : Except JSError JSString :=
  match Math.round n (optProp (optProp weather (lit "current")) (lit "temp")) with
  | .error e => .error e
  | .ok r => renderChildren n [coalesce r (.str (lit "--")), .str (lit "°C")]

/-- The text of the temperature item of the sidebar (line 119). -/
def detailTemp (n : Numerics) (weather : JSValue) : Except JSError JSString :=
  match Math.round n (optProp (optProp weather (lit "current")) (lit "temp")) with
  | .error e => .error e
  | .ok r => renderChildren n [.str (lit "🌡️ Temp: "), coalesce r (.str (lit "--")), .str (lit "°C")]

/-- The text of the humidity item of the sidebar (line 120). -/
def detailHumidity (n : Numerics) (weather : JSValue) : Except JSError JSString :=
  renderChildren n
    [.str (lit "💧 Humidity: "),
      coalesce (optProp (optProp weather (lit "current")) (lit "humidity")) (.str (lit "--")),
      .str (lit "%")]

/-- The text of the wind item of the sidebar (line 121). -/
def detailWind (n : Numerics) (weather : JSValue) : Except JSError JSString :=
  match Math.round n (optProp (optProp weather (lit "current")) (lit "wind_speed")) with
  | .error e => .error e
  | .ok r => renderChildren n [.str (lit "💨 Wind: "), coalesce r (.str (lit "--")), .str (lit " m/s")]

/-- Text services of the host whose tables are not reproduced here: the
locale formatting of dates and the Unicode upper-case mapping. None of them
throws, also on an invalid date. -/
structure Locale where
  /-- `new Date(t).toLocaleTimeString()` (lines 125 and 131). -/
  timeString : JSNumber → JSString
  /-- `new Date(t).toLocaleTimeString([], ...)` with two-digit hour and minute (line 147). -/
  hourLabel : JSNumber → JSString
  /-- `new Date(t).toLocaleDateString(undefined, ...)` with a short weekday (line 173). -/
  dayLabel : JSNumber → JSString
  /-- `String.prototype.toUpperCase`. -/
  toUpperCase : JSString → JSString

/-- The product `x * 1000` on numbers. -/
def timesThousand : JSNumber → JSNumber
  | .fin q => .fin (q * 1000)
  | x => x

/-- The heading of the dashboard (lines 96 to 98). -/
def title (loc : Locale) (city : JSString) : JSString :=
  match city with
  | [] => lit "Unknown Location"
  | c :: rest => loc.toUpperCase [c] ++ rest

/-- The text of an `alt` attribute holding `v`: React sets the attribute to
the string form of the value and leaves it out for `undefined`, `null` and
a boolean. -/
def altAttribute (n : Numerics) (v : JSValue) : Except JSError (Option JSString) :=
  match v with
  | .undefined => .ok none
  | .null => .ok none
  | .bool _ => .ok none
  | _ =>
    match toStr n v with
    | .error e => .error e
    | .ok text => .ok (some text)

/-- The description of the current conditions (lines 101 and 111):
`weather?.current?.weather?.[0]?.description || ""`. -/
def currentDescription (weather : JSValue) : JSValue :=
  orElse
    (optProp (optElem (optProp (optProp weather (lit "current")) (lit "weather")) 0)
      (lit "description"))
    (.str [])

/-- The text of the sunrise or sunset item of the sidebar (lines 122 to 133),
for the field `key` of `current` and the label of the item. -/
def sunText (n : Numerics) (loc : Locale) (label key : JSString) (weather : JSValue) :
    Except JSError JSString :=
  if truthy (optProp (optProp weather (lit "current")) key) then
    match toNumber n (optProp (optProp weather (lit "current")) key) with
    | .error e => .error e
    | .ok t => .ok (label ++ loc.timeString (timesThousand t))
  else .ok (label ++ lit "--")

/-- The description of one hourly or daily entry (lines 153 and 178):
`hour.weather[0]?.description || ""`. -/
def entryDescription (entry : JSValue) : Except JSError JSValue :=
  match getProp entry (lit "weather") with
  | .error e => .error e
  | .ok list =>
    match getElem list 0 with
    | .error e => .error e
    | .ok first => .ok (orElse (optProp first (lit "description")) (.str []))

/-- One cell of the hourly or of the 7-day strip: its time label, the `alt`
and `src` of its image and its temperature text. -/
structure Cell where
  label : JSString
  alt : Option JSString
  src : JSString
  temp : JSString

/-- The time value `entry.dt * 1000` of one entry (lines 147 and 173). -/
def entryTime (n : Numerics) (entry : JSValue) : Except JSError JSNumber :=
  match getProp entry (lit "dt") with
  | .error e => .error e
  | .ok dt =>
    match toNumber n dt with
    | .error e => .error e
    | .ok t => .ok (timesThousand t)

/-- The image attributes of one entry (lines 152 to 155 and 177 to 180). -/
def entryImage (n : Numerics) (entry : JSValue) : Except JSError (Option JSString × JSString) :=
  match entryDescription entry with
  | .error e => .error e
  | .ok description =>
    match entryIconSrc n entry with
    | .error e => .error e
    | .ok src =>
      match altAttribute n description with
      | .error e => .error e
      | .ok alt => .ok (alt, src)

/-- The temperature paragraph of a cell, for the value `v` handed to
`Math.round` (lines 157 and 182). -/
def cellTemp (n : Numerics) (v : JSValue) : Except JSError JSString :=
  match Math.round n v with
  | .error e => .error e
  | .ok r => renderChildren n [r, .str (lit "°C")]

/-- The cell the callback of line 141 produces for one hourly entry, or
`none` when producing it throws. -/
def hourCell (n : Numerics) (loc : Locale) (hour : JSValue) : Option Cell :=
  match entryTime n hour, entryImage n hour, cellTemp n (member hour (lit "temp")) with
  | .ok t, .ok (alt, src), .ok temp => some ⟨loc.hourLabel t, alt, src, temp⟩
  | _, _, _ => none

/-- The value `day.temp.day` of line 182. -/
def dayTemp (day : JSValue) : Except JSError JSValue :=
  match getProp day (lit "temp") with
  | .error e => .error e
  | .ok temp => getProp temp (lit "day")

/-- The cell the callback of line 167 produces for one daily entry, or
`none` when producing it throws. -/
def dayCell (n : Numerics) (loc : Locale) (day : JSValue) : Option Cell :=
  match entryTime n day, entryImage n day, dayTemp day with
  | .ok t, .ok (alt, src), .ok v =>
    match cellTemp n v with
    | .ok temp => some ⟨loc.dayLabel t, alt, src, temp⟩
    | .error _ => none
  | _, _, _ => none

/-- `Array.prototype.map` with a callback that may throw: the cells of the
entries in order, or `none` as soon as one entry throws. -/
def mapCells (f : JSValue → Option Cell) : List JSValue → Option (List Cell)
  | [] => some []
  | x :: rest =>
    match f x, mapCells f rest with
    | some c, some cs => some (c :: cs)
    | _, _ => none

/-- The cells of the hourly strip (lines 141 to 159). -/
def hourlyStrip (n : Numerics) (loc : Locale) (weather : JSValue) : Option (List Cell) :=
  match hourlyEntries weather with
  | .error _ => none
  | .ok entries => mapCells (hourCell n loc) entries

/-- The cells of the 7-day strip (lines 167 to 185). -/
def dailyStrip (n : Numerics) (loc : Locale) (weather : JSValue) : Option (List Cell) :=
  match dailyEntries weather with
  | .error _ => none
  | .ok entries => mapCells (dayCell n loc) entries

/-- The current-conditions pane (lines 94 to 113). -/
structure CurrentPane where
  title : JSString
  alt : Option JSString
  src : JSString
  temperature : JSString
  description : JSString

/-- The sidebar (lines 116 to 135). -/
structure Details where
  temp : JSString
  humidity : JSString
  wind : JSString
  sunrise : JSString
  sunset : JSString

/-- What the dashboard branch puts on the page. -/
structure Dashboard where
  current : CurrentPane
  details : Details
  hourly : List Cell
  daily : List Cell

/-- The current-conditions pane, or `none` when producing it throws. -/
def currentPane (n : Numerics) (loc : Locale) (s : AppState) : Option CurrentPane :=
  match altAttribute n (currentDescription s.weather), currentIconSrc n s.weather,
    temperatureText n s.weather, renderChild n (currentDescription s.weather) with
  | .ok alt, .ok src, .ok temperature, .ok description =>
    some ⟨title loc s.city, alt, src, temperature, description⟩
  | _, _, _, _ => none

/-- The sidebar, or `none` when producing it throws. -/
def details (n : Numerics) (loc : Locale) (weather : JSValue) : Option Details :=
  match detailTemp n weather, detailHumidity n weather, detailWind n weather,
    sunText n loc (lit "🌅 Sunrise: ") (lit "sunrise") weather,
    sunText n loc (lit "🌇 Sunset: ") (lit "sunset") weather with
  | .ok temp, .ok humidity, .ok wind, .ok sunrise, .ok sunset =>
    some ⟨temp, humidity, wind, sunrise, sunset⟩
  | _, _, _, _, _ => none

/-- The dashboard branch of the render (lines 81 to 188): what it shows, or
`none` when evaluating or committing it throws and nothing is shown. -/
def renderDashboard (n : Numerics) (loc : Locale) (s : AppState) : Option Dashboard :=
  match currentPane n loc s, details n loc s.weather, hourlyStrip n loc s.weather,
    dailyStrip n loc s.weather with
  | some current, some side, some hourly, some daily => some ⟨current, side, hourly, daily⟩
  | _, _, _, _ => none

/-- The maximal runs of state updates of a trace between two network calls:
the handler runs each of them without interruption, and awaits at each call,
where other handlers can run. -/
def segments : List Effect → List (List Effect)
  | [] => [[]]
  | .call _ _ :: rest => [] :: segments rest
  | e :: rest =>
    match segments rest with
    | [] => [[e]]
    | b :: bs => (e :: b) :: bs

/-- The states the component can be in between two runs of its code, from
the initial state: after a keystroke in the input (line 65), after
`clearSearch`, which is wired to the button of the dashboard branch only
(line 85), and after any uninterrupted run of updates of any lookup, started
from any query against any host, whatever else ran in between. -/
inductive Reachable : AppState → Prop
  | initial : Reachable initialState
  | typing (s : AppState) (v : JSString) : Reachable s → Reachable (run s [.setCity v])
  | cleared (s : AppState) : Reachable s → takesDashboardBranch s = true →
      Reachable (run s clearSearch)
  | lookup (s : AppState) (h : Host) (s0 : AppState) (b : List Effect) : Reachable s →
      b ∈ segments (fetchWeather h s0) → Reachable (run s b)

/-- The host `h` with every HTTP status replaced: the request to `url` that `h`
answers with status `st` is answered with status `f url st`, and the same body. -/
def Host.withStatus (h : Host) (f : JSString → Nat → Nat) : Host :=
  { h with
    fetch := fun url =>
      match h.fetch url with
      | .rejected => .rejected
      | .response st body => .response (f url st) body }

/-! ## Example hosts and payloads -/

/-- Conversions that are never consulted on the payloads of the examples. -/
def plainNumerics : Numerics := ⟨fun _ => [], fun _ => .nan⟩

/-- A host whose network always rejects and whose API key is not configured. -/
def offlineHost : Host := ⟨fun _ => .rejected, none, plainNumerics⟩

/-- A state with the given query text and the other cells at their initial values. -/
def typed (city : JSString) : AppState := { initialState with city := city }

/-- A host whose geocoding service knows no city: every request is answered
`200` with an empty array. -/
def emptyHost : Host := ⟨fun _ => .response 200 (some (.arr [])), some (lit "k"), plainNumerics⟩

/-- A host with one answer for the geocoding endpoint and one for every other
request; the API key is `k`. -/
def serviceHost (geo other : FetchOutcome) : Host :=
  ⟨fun url => if (lit "https://api.openweathermap.org/geo/").isPrefixOf url then geo else other,
    some (lit "k"), plainNumerics⟩

/-- A geocoding payload with one entry, at latitude 60 and longitude 11. -/
def oneCity : JSValue := .arr [.obj [(lit "lat", .num (.fin 60)), (lit "lon", .num (.fin 11))]]

/-- The `weather` list of the example entries: one condition, with a
description and an icon code. -/
def mist : JSValue :=
  .arr [.obj [(lit "description", .str (lit "mist")), (lit "icon", .str (lit "50d"))]]

/-- The hourly entry number `i` of the example forecast. -/
def hourEntry (i : Nat) : JSValue :=
  .obj [(lit "dt", .num (.fin (1700000000 + 3600 * i))), (lit "temp", .num (.fin i)),
    (lit "weather", mist)]

/-- The daily entry number `i` of the example forecast. -/
def dayEntry (i : Nat) : JSValue :=
  .obj [(lit "dt", .num (.fin (1700000000 + 86400 * i))),
    (lit "temp", .obj [(lit "day", .num (.fin i))]), (lit "weather", mist)]

/-- The 30 hourly entries of `longForecast`. -/
def longHourly : List JSValue := (List.range 30).map hourEntry

/-- The 9 daily entries of `longForecast`. -/
def longDaily : List JSValue := (List.range 9).map dayEntry

/-- A weather payload with current conditions, 30 hourly entries and 9 daily
entries. -/
def longForecast : JSValue :=
  .obj [(lit "current", .obj [(lit "temp", .num (.fin 3)), (lit "humidity", .num (.fin 80)),
      (lit "wind_speed", .num (.fin 2)), (lit "sunrise", .num (.fin 1700000000)),
      (lit "sunset", .num (.fin 1700030000)), (lit "weather", mist)]),
    (lit "hourly", .arr longHourly), (lit "daily", .arr longDaily)]

/-- A host that finds one city and answers the weather request with
`longForecast`. -/
def forecastHost : Host :=
  serviceHost (.response 200 (some oneCity)) (.response 200 (some longForecast))

/-- A locale with fixed labels and no case mapping. -/
def plainLocale : Locale := ⟨fun _ => lit "06:00:00", fun _ => lit "06:00", fun _ => lit "Mon", id⟩

/-- The state after the lookup of `Oslo` against `forecastHost`. -/
def loadedOslo : AppState := ⟨lit "Oslo", longForecast, [], false⟩

/-- The dashboard of `loadedOslo`: 24 hourly cells and 7 daily cells. -/
def longDashboard : Dashboard :=
  ⟨⟨lit "Oslo", some (lit "mist"), lit "https://openweathermap.org/img/wn/50d@2x.png", lit "3°C",
      lit "mist"⟩,
    ⟨lit "🌡️ Temp: 3°C", lit "💧 Humidity: 80%", lit "💨 Wind: 2 m/s", lit "🌅 Sunrise: 06:00:00", lit "🌇 Sunset: 06:00:00"⟩,
    (List.range 24).map fun i =>
      ⟨lit "06:00", some (lit "mist"), lit "https://openweathermap.org/img/wn/50d.png",
        decimal i ++ lit "°C"⟩,
    (List.range 7).map fun i =>
      ⟨lit "Mon", some (lit "mist"), lit "https://openweathermap.org/img/wn/50d.png",
        decimal i ++ lit "°C"⟩⟩

/-- The body the service sends with status 401 when the API key is refused. -/
def errorBody : JSValue :=
  .obj [(lit "cod", .num (.fin 401)), (lit "message", .str (lit "Invalid API key"))]

/-- A host that refuses every request with status 401 and `errorBody`. -/
def unauthorizedHost : Host := ⟨fun _ => .response 401 (some errorBody), some (lit "k"), plainNumerics⟩

/-- A host that finds one city and refuses the weather request with status 401
and `errorBody`. -/
def weatherRefusedHost : Host :=
  serviceHost (.response 200 (some oneCity)) (.response 401 (some errorBody))

/-- An hourly entry with a time, a temperature and the given `weather` list. -/
def bareEntry (list : JSValue) : JSValue :=
  .obj [(lit "dt", .num (.fin 1700000000)), (lit "temp", .num (.fin 3)), (lit "weather", list)]

/-! ## Basic facts -/

theorem trimStart_of_all_whiteSpace (s : JSString) (hs : ∀ u ∈ s, isWhiteSpace u = true) :
    trimStart s = [] := by
  unfold trimStart
  exact List.dropWhile_eq_nil_iff.mpr hs

theorem trim_of_all_whiteSpace (s : JSString) (hs : ∀ u ∈ s, isWhiteSpace u = true) :
    trim s = [] := by
  simp [trim, trimStart_of_all_whiteSpace s hs, trimEnd]

theorem trim_eq_nil_iff (s : JSString) : trim s = [] ↔ ∀ u ∈ s, isWhiteSpace u = true := by
  constructor
  · intro ht
    have h1 : ∀ u ∈ s.dropWhile isWhiteSpace, isWhiteSpace u = true := by
      have h2 : (s.dropWhile isWhiteSpace).reverse.dropWhile isWhiteSpace = [] := by
        simpa [trim, trimEnd, trimStart] using ht
      intro u hu
      exact List.dropWhile_eq_nil_iff.mp h2 u (List.mem_reverse.mpr hu)
    have h3 : s.dropWhile isWhiteSpace = [] := by
      cases hd : s.dropWhile isWhiteSpace with
      | nil => rfl
      | cons a rest =>
        have hne : s.dropWhile isWhiteSpace ≠ [] := by simp [hd]
        have hhead := List.head_dropWhile_not isWhiteSpace s hne
        have ha := h1 a (by simp [hd])
        simp [hd] at hhead
        simp [hhead] at ha
    exact List.dropWhile_eq_nil_iff.mp h3
  · exact trim_of_all_whiteSpace s

/-- The step of `encodeURIComponent` on a unit that is not a surrogate. -/
theorem encodeURIComponent_cons (c : Nat) (rest : JSString)
    (hh : isHighSurrogate c = false) (hl : isLowSurrogate c = false) :
    encodeURIComponent (c :: rest) =
      match encodeURIComponent rest with
      | .ok r => .ok (if isUnescaped c then c :: r else escapeCodePoint c ++ r)
      | .error e => .error e := by
  cases rest with
  | nil =>
    have hstep : encodeURIComponent [c] =
        if isUnescaped c then .ok [c]
        else if isHighSurrogate c then .error .uriError
        else if isLowSurrogate c then .error .uriError
        else .ok (escapeCodePoint c ++ []) := rfl
    have hnil : encodeURIComponent [] = .ok [] := rfl
    rw [hstep, hnil]
    by_cases hu : isUnescaped c = true <;> simp [hu, hh, hl]
  | cons d rest2 =>
    have hstep : encodeURIComponent (c :: d :: rest2) =
        if isUnescaped c then
          match encodeURIComponent (d :: rest2) with
          | .ok r => .ok (c :: r)
          | .error e => .error e
        else if isHighSurrogate c then
          if isLowSurrogate d then
            match encodeURIComponent rest2 with
            | .ok r => .ok (escapeCodePoint (0x10000 + (c - 0xD800) * 0x400 + (d - 0xDC00)) ++ r)
            | .error e => .error e
          else .error .uriError
        else if isLowSurrogate c then .error .uriError
        else
          match encodeURIComponent (d :: rest2) with
          | .ok r => .ok (escapeCodePoint c ++ r)
          | .error e => .error e := rfl
    rw [hstep]
    cases encodeURIComponent (d :: rest2) <;> by_cases hu : isUnescaped c = true <;>
      simp [hu, hh, hl]

/-- Text without surrogate code units is always accepted by `encodeURIComponent`. -/
theorem encodeURIComponent_ok_of_no_surrogate (s : JSString)
    (hs : ∀ u ∈ s, isHighSurrogate u = false ∧ isLowSurrogate u = false) :
    ∃ q, encodeURIComponent s = .ok q := by
  induction s with
  | nil => exact ⟨[], rfl⟩
  | cons c rest ih =>
    obtain ⟨r, hr⟩ := ih (fun u hu => hs u (List.mem_cons_of_mem _ hu))
    have hc := hs c (List.mem_cons_self _ _)
    rw [encodeURIComponent_cons c rest hc.1 hc.2, hr]
    exact ⟨_, rfl⟩

theorem roundNumber_example : roundNumber (.fin (153 / 10)) = .fin 15 := by
  simp only [roundNumber]
  congr 1
  norm_num [Int.floor_eq_iff]

/-- A present temperature of 15.3 is displayed as `15°C`. -/
theorem temperature_rounds_example (n : Numerics) :
    temperatureText n (.obj [(lit "current", .obj [(lit "temp", .num (.fin (153 / 10)))])]) =
      .ok (lit "15°C") := by
  have hm : optProp (optProp (.obj [(lit "current", .obj [(lit "temp", .num (.fin (153 / 10)))])])
      (lit "current")) (lit "temp") = .num (.fin (153 / 10)) := rfl
  have h15 : numberToString n (.fin 15) = lit "15" := rfl
  simp only [temperatureText, hm, Math.round, toNumber, roundNumber_example, coalesce, isNullish,
    renderChildren, renderChild, h15]
  rfl

theorem fetchWeather_of_blank (h : Host) (s : AppState) (hs : trim s.city = []) :
    fetchWeather h s = [] := by
  simp [fetchWeather, hs, truthy]

theorem fetchWeather_of_nonblank (h : Host) (s : AppState) (hs : trim s.city ≠ []) :
    fetchWeather h s =
      [.setIsLoading true, .setError [], .setWeather .null] ++ (tryBlock h s.city).1 ++
        catchBlock (tryBlock h s.city).2 ++ [.setIsLoading false] := by
  simp [fetchWeather, hs, truthy]

theorem calls_append (c : Collaborator) (t u : List Effect) :
    calls c (t ++ u) = calls c t ++ calls c u := by
  induction t with
  | nil => rfl
  | cons e t ih => cases e <;> simp [calls, ih]; split <;> simp

theorem run_append (s : AppState) (t u : List Effect) : run s (t ++ u) = run (run s t) u := by
  simp [run, List.foldl_append]

theorem afterGeocoding_empty (h : Host) :
    afterGeocoding h (.arr []) =
      ([.setError (lit "City not found"), .setIsLoading false], .returned) := by
  simp [afterGeocoding, getProp, isNullish, member, truthy]

/-- The effects of the weather request are its one call, then at most the store
of the payload. -/
theorem fetchOneCall_shape (h : Host) (lat lon : JSValue) :
    (fetchOneCall h lat lon = ([], .thrown)) ∨
    (∃ a b, toStr h.numerics lat = .ok a ∧ toStr h.numerics lon = .ok b ∧
      (h.fetch (oneCallUrl h a b) = .rejected ∨ ∃ st, h.fetch (oneCallUrl h a b) = .response st none) ∧
      fetchOneCall h lat lon = ([.call .oneCall (oneCallUrl h a b)], .thrown)) ∨
    (∃ a b st w, toStr h.numerics lat = .ok a ∧ toStr h.numerics lon = .ok b ∧
      h.fetch (oneCallUrl h a b) = .response st (some w) ∧
      fetchOneCall h lat lon = ([.call .oneCall (oneCallUrl h a b), .setWeather w], .normal)) := by
  unfold fetchOneCall
  cases ha : toStr h.numerics lat with
  | error e => simp
  | ok a =>
    cases hb : toStr h.numerics lon with
    | error e => simp
    | ok b =>
      cases hf : h.fetch (oneCallUrl h a b) with
      | rejected => simp [hf]
      | response st body =>
        cases body with
        | none => simp [hf]
        | some w => simp [hf]

/-- The three ways the handling of a geocoding payload can go. -/
theorem afterGeocoding_cases (h : Host) (g : JSValue) :
    (afterGeocoding h g = ([], .thrown) ∧
      (isNullish g = true ∨
        (truthy (member g (lit "length")) = true ∧ isNullish (element g 0) = true))) ∨
    (afterGeocoding h g = ([.setError (lit "City not found"), .setIsLoading false], .returned) ∧
      isNullish g = false ∧ truthy (member g (lit "length")) = false) ∨
    (afterGeocoding h g =
        fetchOneCall h (member (element g 0) (lit "lat")) (member (element g 0) (lit "lon")) ∧
      isNullish g = false ∧ truthy (member g (lit "length")) = true ∧
      isNullish (element g 0) = false) := by
  unfold afterGeocoding getProp getElem
  cases hn : isNullish g with
  | true => simp
  | false =>
    cases hl : truthy (member g (lit "length")) with
    | false => simp [hl]
    | true =>
      cases he : isNullish (element g 0) with
      | true => simp [hl, he]
      | false => simp [hl, he]

/-- The ways the `try` block can go up to the arrival of the geocoding payload. -/
theorem tryBlock_cases (h : Host) (city : JSString) :
    (tryBlock h city = ([], .thrown) ∧ ∃ e, encodeURIComponent city = .error e) ∨
    ∃ q, encodeURIComponent city = .ok q ∧
      ((tryBlock h city = ([.call .geocoding (geocodingUrl h q)], .thrown) ∧
          (h.fetch (geocodingUrl h q) = .rejected ∨
            ∃ st, h.fetch (geocodingUrl h q) = .response st none)) ∨
        ∃ st g, h.fetch (geocodingUrl h q) = .response st (some g) ∧
          tryBlock h city =
            (.call .geocoding (geocodingUrl h q) :: (afterGeocoding h g).1,
              (afterGeocoding h g).2)) := by
  unfold tryBlock
  cases hq : encodeURIComponent city with
  | error e => simp
  | ok q =>
    cases hf : h.fetch (geocodingUrl h q) with
    | rejected => simp [hf]
    | response st body =>
      cases body with
      | none => simp [hf]
      | some g => exact Or.inr ⟨q, rfl, Or.inr ⟨st, g, hf, by simp [hf]⟩⟩

/-- Every complete run of `fetchWeather` on a non-blank query has one of six
traces, each tied to what the host answered. -/
theorem fetchWeather_cases (h : Host) (s : AppState) (hs : trim s.city ≠ []) :
    ((∃ e, encodeURIComponent s.city = .error e) ∧
      fetchWeather h s =
        [.setIsLoading true, .setError [], .setWeather .null,
          .setError (lit "Failed to fetch weather data"), .setIsLoading false]) ∨
    ∃ q, encodeURIComponent s.city = .ok q ∧
      (((h.fetch (geocodingUrl h q) = .rejected ∨
            ∃ st, h.fetch (geocodingUrl h q) = .response st none) ∧
          fetchWeather h s =
            [.setIsLoading true, .setError [], .setWeather .null,
              .call .geocoding (geocodingUrl h q),
              .setError (lit "Failed to fetch weather data"), .setIsLoading false]) ∨
        ∃ st g, h.fetch (geocodingUrl h q) = .response st (some g) ∧
          (((isNullish g = true ∨ truthy (member g (lit "length")) = true) ∧
              fetchWeather h s =
                [.setIsLoading true, .setError [], .setWeather .null,
                  .call .geocoding (geocodingUrl h q),
                  .setError (lit "Failed to fetch weather data"), .setIsLoading false]) ∨
            (isNullish g = false ∧ truthy (member g (lit "length")) = false ∧
              fetchWeather h s =
                [.setIsLoading true, .setError [], .setWeather .null,
                  .call .geocoding (geocodingUrl h q),
                  .setError (lit "City not found"), .setIsLoading false,
                  .setIsLoading false]) ∨
            ∃ w, isNullish g = false ∧ truthy (member g (lit "length")) = true ∧
              (((h.fetch w = .rejected ∨ ∃ st2, h.fetch w = .response st2 none) ∧
                  fetchWeather h s =
                    [.setIsLoading true, .setError [], .setWeather .null,
                      .call .geocoding (geocodingUrl h q), .call .oneCall w,
                      .setError (lit "Failed to fetch weather data"), .setIsLoading false]) ∨
                ∃ st2 weatherData, h.fetch w = .response st2 (some weatherData) ∧
                  fetchWeather h s =
                    [.setIsLoading true, .setError [], .setWeather .null,
                      .call .geocoding (geocodingUrl h q), .call .oneCall w,
                      .setWeather weatherData, .setIsLoading false]))) := by
  rw [fetchWeather_of_nonblank h s hs]
  rcases tryBlock_cases h s.city with ⟨ht, he⟩ | ⟨q, hq, ⟨ht, hf⟩ | ⟨st, g, hf, ht⟩⟩
  · exact Or.inl ⟨he, by simp [ht, catchBlock]⟩
  · exact Or.inr ⟨q, hq, Or.inl ⟨hf, by simp [ht, catchBlock]⟩⟩
  · refine Or.inr ⟨q, hq, Or.inr ⟨st, g, hf, ?_⟩⟩
    rcases afterGeocoding_cases h g with ⟨ha, hg⟩ | ⟨ha, hn, hl⟩ | ⟨ha, hn, hl, he⟩
    · refine Or.inl ⟨?_, by simp [ht, ha, catchBlock]⟩
      rcases hg with hg | ⟨hg, _⟩
      · exact Or.inl hg
      · exact Or.inr hg
    · exact Or.inr (Or.inl ⟨hn, hl, by simp [ht, ha, catchBlock]⟩)
    · rcases fetchOneCall_shape h (member (element g 0) (lit "lat"))
          (member (element g 0) (lit "lon")) with hw | ⟨a, b, _, _, hw, hw2⟩ |
          ⟨a, b, st2, w, _, _, hw, hw2⟩
      · exact Or.inl ⟨Or.inr hl, by simp [ht, ha, hw, catchBlock]⟩
      · exact Or.inr (Or.inr ⟨oneCallUrl h a b, hn, hl,
          Or.inl ⟨hw, by simp [ht, ha, hw2, catchBlock]⟩⟩)
      · exact Or.inr (Or.inr ⟨oneCallUrl h a b, hn, hl,
          Or.inr ⟨st2, w, hw, by simp [ht, ha, hw2, catchBlock]⟩⟩)

theorem withStatus_fetch (h : Host) (f : JSString → Nat → Nat) (url : JSString) :
    (h.withStatus f).fetch url =
      match h.fetch url with
      | .rejected => .rejected
      | .response st body => .response (f url st) body := rfl

theorem withStatus_numerics (h : Host) (f : JSString → Nat → Nat) :
    (h.withStatus f).numerics = h.numerics := rfl

theorem withStatus_oneCallUrl (h : Host) (f : JSString → Nat → Nat) (a b : JSString) :
    oneCallUrl (h.withStatus f) a b = oneCallUrl h a b := rfl

theorem withStatus_geocodingUrl (h : Host) (f : JSString → Nat → Nat) (q : JSString) :
    geocodingUrl (h.withStatus f) q = geocodingUrl h q := rfl

theorem fetchOneCall_withStatus (h : Host) (f : JSString → Nat → Nat) (lat lon : JSValue) :
    fetchOneCall (h.withStatus f) lat lon = fetchOneCall h lat lon := by
  simp only [fetchOneCall, withStatus_numerics, withStatus_oneCallUrl, withStatus_fetch]
  cases toStr h.numerics lat with
  | error e => rfl
  | ok a =>
    cases toStr h.numerics lon with
    | error e => rfl
    | ok b =>
      cases hf : h.fetch (oneCallUrl h a b) with
      | rejected => simp [hf]
      | response st body => cases body <;> simp [hf]

theorem afterGeocoding_withStatus (h : Host) (f : JSString → Nat → Nat) (g : JSValue) :
    afterGeocoding (h.withStatus f) g = afterGeocoding h g := by
  simp only [afterGeocoding, fetchOneCall_withStatus]

theorem tryBlock_withStatus (h : Host) (f : JSString → Nat → Nat) (city : JSString) :
    tryBlock (h.withStatus f) city = tryBlock h city := by
  simp only [tryBlock, withStatus_geocodingUrl, withStatus_fetch, afterGeocoding_withStatus]
  cases encodeURIComponent city with
  | error e => rfl
  | ok q =>
    cases hf : h.fetch (geocodingUrl h q) with
    | rejected => simp [hf]
    | response st body => cases body <;> simp [hf]

theorem fetchWeather_withStatus (h : Host) (f : JSString → Nat → Nat) (s : AppState) :
    fetchWeather (h.withStatus f) s = fetchWeather h s := by
  simp only [fetchWeather, tryBlock_withStatus]

/-- The three cells `clearSearch` writes, from any state; the loading flag is
not among them. -/
theorem run_clearSearch (s : AppState) : run s clearSearch = ⟨[], .null, [], s.isLoading⟩ := rfl

/-- Every uninterrupted run of updates of a lookup ends with the loading flag
cleared or with no weather stored, when it starts so. -/
theorem segment_keeps_loading_or_empty (h : Host) (s0 s : AppState) (b : List Effect)
    (hb : b ∈ segments (fetchWeather h s0))
    (hinv : s.isLoading = false ∨ s.weather = .null) :
    (run s b).isLoading = false ∨ (run s b).weather = .null := by
  by_cases hs : trim s0.city = []
  · rw [fetchWeather_of_blank h s0 hs] at hb
    simp [segments] at hb
    subst hb
    exact hinv
  · rcases fetchWeather_cases h s0 hs with ⟨_, ht⟩ | ⟨q, _, ⟨_, ht⟩ | ⟨st1, g, hf, hg⟩⟩
    · rw [ht] at hb
      simp [segments] at hb
      subst hb
      simp [run, Effect.apply]
    · rw [ht] at hb
      simp [segments] at hb
      rcases hb with hb | hb <;> subst hb <;> simp [run, Effect.apply]
    · rcases hg with ⟨_, ht⟩ | ⟨_, _, ht⟩ | ⟨w, _, _, ⟨_, ht⟩ | ⟨st2, wd, hw, ht⟩⟩
      · rw [ht] at hb
        simp [segments] at hb
        rcases hb with hb | hb <;> subst hb <;> simp [run, Effect.apply]
      · rw [ht] at hb
        simp [segments] at hb
        rcases hb with hb | hb <;> subst hb <;> simp [run, Effect.apply]
      · rw [ht] at hb
        simp [segments] at hb
        rcases hb with hb | hb | hb <;> subst hb <;> simp [run, Effect.apply, hinv]
      · rw [ht] at hb
        simp [segments] at hb
        rcases hb with hb | hb | hb <;> subst hb <;> simp [run, Effect.apply, hinv]

/-- In every reachable state the loading flag is cleared or no weather is
stored. -/
theorem reachable_loading_or_empty (s : AppState) (hr : Reachable s) :
    s.isLoading = false ∨ s.weather = .null := by
  induction hr with
  | initial => exact Or.inl rfl
  | typing s v _ ih => simpa [run, Effect.apply] using ih
  | cleared s _ _ _ => exact Or.inr rfl
  | lookup s h s0 b _ hb ih => exact segment_keeps_loading_or_empty h s0 s b hb ih

theorem mapCells_forall2 (f : JSValue → Option Cell) (xs : List JSValue) (cs : List Cell)
    (hm : mapCells f xs = some cs) : List.Forall₂ (fun e c => f e = some c) xs cs := by
  induction xs generalizing cs with
  | nil =>
    simp [mapCells] at hm
    subst hm
    exact List.Forall₂.nil
  | cons x rest ih =>
    unfold mapCells at hm
    cases hx : f x with
    | none => simp [hx] at hm
    | some c =>
      cases hrest : mapCells f rest with
      | none => simp [hx, hrest] at hm
      | some cs2 =>
        simp [hx, hrest] at hm
        subst hm
        exact List.Forall₂.cons hx (ih cs2 hrest)

theorem mapCells_length (f : JSValue → Option Cell) (xs : List JSValue) (cs : List Cell)
    (hm : mapCells f xs = some cs) : cs.length = xs.length :=
  (List.Forall₂.length_eq (mapCells_forall2 f xs cs hm)).symm

/-- A dashboard that renders carries the cells of its two strips. -/
theorem renderDashboard_strips (n : Numerics) (loc : Locale) (s : AppState) (d : Dashboard)
    (hd : renderDashboard n loc s = some d) :
    hourlyStrip n loc s.weather = some d.hourly ∧ dailyStrip n loc s.weather = some d.daily := by
  unfold renderDashboard at hd
  cases h1 : currentPane n loc s <;> cases h2 : details n loc s.weather <;>
    cases h3 : hourlyStrip n loc s.weather <;> cases h4 : dailyStrip n loc s.weather <;>
    simp [h1, h2, h3, h4] at hd
  subst hd
  exact ⟨rfl, rfl⟩

theorem take_min_length (xs : List JSValue) (k : Nat) : xs.take (min xs.length k) = xs.take k := by
  rcases Nat.le_total xs.length k with hle | hle
  · rw [Nat.min_eq_left hle, List.take_of_length_le hle, List.take_of_length_le (le_refl _)]
  · rw [Nat.min_eq_right hle]

theorem forecastHost_segments :
    segments (fetchWeather forecastHost (typed (lit "Oslo"))) =
      [[.setIsLoading true, .setError [], .setWeather .null], [],
        [.setWeather longForecast, .setIsLoading false]] := rfl

/-- The state `loadedOslo` is reached by typing `Oslo` and looking it up
against `forecastHost`. -/
theorem loadedOslo_reachable : Reachable loadedOslo :=
  Reachable.lookup _ forecastHost (typed (lit "Oslo"))
    [.setWeather longForecast, .setIsLoading false]
    (Reachable.lookup _ forecastHost (typed (lit "Oslo"))
      [.setIsLoading true, .setError [], .setWeather .null]
      (Reachable.typing initialState (lit "Oslo") Reachable.initial)
      (by rw [forecastHost_segments]; simp))
    (by rw [forecastHost_segments]; simp)

theorem loadedOslo_renders :
    renderDashboard forecastHost.numerics plainLocale loadedOslo = some longDashboard := by
  with_unfolding_all rfl

/-! ## Claims -/

/-- C1: for every query text that is empty or made of whitespace only, and
every prior state, `fetchWeather` performs no effect at all: it calls neither
collaborator and leaves the four state cells as they were. -/
theorem blank_query_is_noop (h : Host) (s : AppState)
    (hblank : ∀ u ∈ s.city, isWhiteSpace u = true) :
    calls .geocoding (fetchWeather h s) = [] ∧ calls .oneCall (fetchWeather h s) = [] ∧
      run s (fetchWeather h s) = s := by
  have ht := fetchWeather_of_blank h s (trim_of_all_whiteSpace s.city hblank)
  simp [ht, calls, run]

theorem blank_query_is_noop_witness :
    (∀ u ∈ (⟨lit "  ", .str (lit "old"), lit "oops", true⟩ : AppState).city,
        isWhiteSpace u = true) ∧
      calls .geocoding (fetchWeather offlineHost ⟨lit "  ", .str (lit "old"), lit "oops", true⟩) = [] ∧
      calls .oneCall (fetchWeather offlineHost ⟨lit "  ", .str (lit "old"), lit "oops", true⟩) = [] ∧
      run ⟨lit "  ", .str (lit "old"), lit "oops", true⟩
          (fetchWeather offlineHost ⟨lit "  ", .str (lit "old"), lit "oops", true⟩) =
        ⟨lit "  ", .str (lit "old"), lit "oops", true⟩ :=
  ⟨by decide, blank_query_is_noop offlineHost ⟨lit "  ", .str (lit "old"), lit "oops", true⟩
    (by decide)⟩

/-- C6: in every state in which `clearSearch` can run, that is every reachable
state whose render takes the dashboard branch, where its button is, whatever
the city text, the stored weather and the error text, `clearSearch` yields the
idle state: `city = ""`, `weather = null`, `error = ""` and the loading flag
cleared; it calls no collaborator. -/
theorem clearSearch_yields_idle (s : AppState) (hr : Reachable s)
    (hb : takesDashboardBranch s = true) :
    run s clearSearch = ⟨[], .null, [], false⟩ ∧
      calls .geocoding clearSearch = [] ∧ calls .oneCall clearSearch = [] := by
  have hload : s.isLoading = false := by
    rcases reachable_loading_or_empty s hr with hl | hw
    · exact hl
    · simp [takesDashboardBranch, hw, truthy] at hb
  refine ⟨?_, rfl, rfl⟩
  rw [run_clearSearch, hload]

theorem clearSearch_yields_idle_witness :
    Reachable loadedOslo ∧ takesDashboardBranch loadedOslo = true ∧
      run loadedOslo clearSearch = ⟨[], .null, [], false⟩ ∧
      calls .geocoding clearSearch = [] ∧ calls .oneCall clearSearch = [] :=
  ⟨loadedOslo_reachable, rfl, clearSearch_yields_idle loadedOslo loadedOslo_reachable rfl⟩

/-- C2: for every non-blank query whose geocoding request is answered by an
empty array, `fetchWeather` ends with `error = "City not found"`,
`weather = null` and `isLoading = false`, and the weather collaborator is
called zero times. -/
theorem empty_geocoding_is_city_not_found (h : Host) (s : AppState) (url : JSString) (st : Nat)
    (hs : trim s.city ≠ [])
    (hcall : url ∈ calls .geocoding (fetchWeather h s))
    (hresp : h.fetch url = .response st (some (.arr []))) :
    (run s (fetchWeather h s)).error = lit "City not found" ∧
      (run s (fetchWeather h s)).weather = .null ∧
      (run s (fetchWeather h s)).isLoading = false ∧
      calls .oneCall (fetchWeather h s) = [] := by
  rcases fetchWeather_cases h s hs with ⟨_, ht⟩ | ⟨q, _, ⟨hf, ht⟩ | ⟨st1, g, hf, hg⟩⟩
  · simp [ht, calls] at hcall
  · simp [ht, calls] at hcall
    subst hcall
    rcases hf with hf | ⟨st2, hf⟩ <;> simp [hf] at hresp
  · have hg2 : g = .arr [] := by
      rcases hg with ⟨_, ht⟩ | ⟨_, _, ht⟩ | ⟨w, _, _, ⟨_, ht⟩ | ⟨_, _, _, ht⟩⟩ <;>
        simp [ht, calls] at hcall <;> subst hcall <;> simp [hf] at hresp <;> exact hresp.2
    subst hg2
    rcases hg with ⟨hg, _⟩ | ⟨_, _, ht⟩ | ⟨w, _, hl, _⟩
    · simp [isNullish, member, truthy] at hg
    · simp [ht, calls, run, Effect.apply]
    · simp [member, truthy] at hl

/-- C3: for every non-blank query, if a request to either collaborator rejects,
or its body cannot be parsed, `fetchWeather` ends with
`error = "Failed to fetch weather data"`, `weather = null` and
`isLoading = false`, whatever the prior state held. -/
theorem failed_request_is_fetch_failure (h : Host) (s : AppState) (c : Collaborator)
    (url : JSString) (hs : trim s.city ≠ [])
    (hcall : url ∈ calls c (fetchWeather h s))
    (hfail : h.fetch url = .rejected ∨ ∃ st, h.fetch url = .response st none) :
    (run s (fetchWeather h s)).error = lit "Failed to fetch weather data" ∧
      (run s (fetchWeather h s)).weather = .null ∧
      (run s (fetchWeather h s)).isLoading = false := by
  rcases fetchWeather_cases h s hs with ⟨_, ht⟩ | ⟨q, _, ⟨_, ht⟩ | ⟨st1, g, hf, hg⟩⟩
  · simp [ht, run, Effect.apply]
  · simp [ht, run, Effect.apply]
  · rcases hg with ⟨_, ht⟩ | ⟨_, _, ht⟩ | ⟨w, _, _, ⟨_, ht⟩ | ⟨st2, wd, hw, ht⟩⟩
    · simp [ht, run, Effect.apply]
    · exfalso
      cases c <;> simp [ht, calls] at hcall
      subst hcall
      rcases hfail with hfail | ⟨st2, hfail⟩ <;> simp [hf] at hfail
    · simp [ht, run, Effect.apply]
    · exfalso
      cases c <;> simp [ht, calls] at hcall <;> subst hcall
      · rcases hfail with hfail | ⟨st2, hfail⟩ <;> simp [hf] at hfail
      · rcases hfail with hfail | ⟨st3, hfail⟩ <;> simp [hw] at hfail

theorem empty_geocoding_is_city_not_found_witness :
    trim (typed (lit "Qwxyzville")).city ≠ [] ∧
      geocodingUrl emptyHost (lit "Qwxyzville") ∈
        calls .geocoding (fetchWeather emptyHost (typed (lit "Qwxyzville"))) ∧
      emptyHost.fetch (geocodingUrl emptyHost (lit "Qwxyzville")) =
        .response 200 (some (.arr [])) ∧
      (run (typed (lit "Qwxyzville")) (fetchWeather emptyHost (typed (lit "Qwxyzville")))).error =
        lit "City not found" ∧
      (run (typed (lit "Qwxyzville")) (fetchWeather emptyHost (typed (lit "Qwxyzville")))).weather =
        .null ∧
      (run (typed (lit "Qwxyzville"))
        (fetchWeather emptyHost (typed (lit "Qwxyzville")))).isLoading = false ∧
      calls .oneCall (fetchWeather emptyHost (typed (lit "Qwxyzville"))) = [] :=
  ⟨by decide, by decide, rfl,
    empty_geocoding_is_city_not_found emptyHost (typed (lit "Qwxyzville"))
      (geocodingUrl emptyHost (lit "Qwxyzville")) 200 (by decide) (by decide) rfl⟩

theorem failed_request_is_fetch_failure_witness :
    trim (typed (lit "London")).city ≠ [] ∧
      geocodingUrl offlineHost (lit "London") ∈
        calls .geocoding (fetchWeather offlineHost (typed (lit "London"))) ∧
      offlineHost.fetch (geocodingUrl offlineHost (lit "London")) = .rejected ∧
      (run (typed (lit "London")) (fetchWeather offlineHost (typed (lit "London")))).error =
        lit "Failed to fetch weather data" ∧
      (run (typed (lit "London")) (fetchWeather offlineHost (typed (lit "London")))).weather =
        .null ∧
      (run (typed (lit "London")) (fetchWeather offlineHost (typed (lit "London")))).isLoading =
        false :=
  ⟨by decide, by decide, rfl,
    failed_request_is_fetch_failure offlineHost (typed (lit "London")) .geocoding
      (geocodingUrl offlineHost (lit "London")) (by decide) (by decide) (Or.inl rfl)⟩

/-- C5 (counterexample): the geocoding service answers with one city and the
weather service answers `200` with the JSON value `null`; the lookup finishes
with no error, no weather and the loading flag cleared, which is the idle
state. -/
theorem null_weather_payload_ends_idle :
    trim (typed (lit "Oslo")).city ≠ [] ∧
      run (typed (lit "Oslo"))
          (fetchWeather (serviceHost (.response 200 (some oneCity)) (.response 200 (some .null)))
            (typed (lit "Oslo"))) =
        ⟨lit "Oslo", .null, [], false⟩ :=
  ⟨by decide, rfl⟩

/-- C5 (amended): for every non-blank query and every outcome of the two
collaborators, when `fetchWeather` finishes `isLoading` is false and either
`error` is non-empty with `weather = null`, or `error` is empty and `weather`
is exactly the payload the weather collaborator returned. So the lookup never
finishes loading, never holds both an error and a weather value, and holds
neither only when the returned weather payload is itself empty. -/
theorem lookup_ends_in_error_or_payload (h : Host) (s : AppState) (hs : trim s.city ≠ []) :
    (run s (fetchWeather h s)).isLoading = false ∧
      (((run s (fetchWeather h s)).error ≠ [] ∧ (run s (fetchWeather h s)).weather = .null) ∨
        ((run s (fetchWeather h s)).error = [] ∧
          ∃ url st w, url ∈ calls .oneCall (fetchWeather h s) ∧
            h.fetch url = .response st (some w) ∧ (run s (fetchWeather h s)).weather = w)) := by
  have hfail : lit "Failed to fetch weather data" ≠ [] := by decide
  have hnone : lit "City not found" ≠ [] := by decide
  rcases fetchWeather_cases h s hs with ⟨_, ht⟩ | ⟨q, _, ⟨_, ht⟩ | ⟨st1, g, hf, hg⟩⟩
  · simp [ht, run, Effect.apply, hfail]
  · simp [ht, run, Effect.apply, hfail]
  · rcases hg with ⟨_, ht⟩ | ⟨_, _, ht⟩ | ⟨w, _, _, ⟨_, ht⟩ | ⟨st2, wd, hw, ht⟩⟩
    · simp [ht, run, Effect.apply, hfail]
    · simp [ht, run, Effect.apply, hnone]
    · simp [ht, run, Effect.apply, hfail]
    · refine ⟨by simp [ht, run, Effect.apply], Or.inr ⟨by simp [ht, run, Effect.apply], ?_⟩⟩
      exact ⟨w, st2, wd, by simp [ht, calls], hw, by simp [ht, run, Effect.apply]⟩

theorem lookup_ends_in_error_or_payload_witness :
    trim (typed (lit "London")).city ≠ [] ∧
      (run (typed (lit "London")) (fetchWeather offlineHost (typed (lit "London")))).isLoading =
        false ∧
      (((run (typed (lit "London")) (fetchWeather offlineHost (typed (lit "London")))).error ≠ [] ∧
          (run (typed (lit "London")) (fetchWeather offlineHost (typed (lit "London")))).weather =
            .null) ∨
        ((run (typed (lit "London")) (fetchWeather offlineHost (typed (lit "London")))).error = [] ∧
          ∃ url st w, url ∈ calls .oneCall (fetchWeather offlineHost (typed (lit "London"))) ∧
            offlineHost.fetch url = .response st (some w) ∧
            (run (typed (lit "London"))
              (fetchWeather offlineHost (typed (lit "London")))).weather = w)) :=
  ⟨by decide, lookup_ends_in_error_or_payload offlineHost (typed (lit "London")) (by decide)⟩

/-- C10 (counterexample): for the query `" a "` the geocoding request carries
`q=%20a%20`, the escape of the text as typed, and no request carries the escape
`a` of the trimmed text; for a query that is a lone surrogate the geocoding
collaborator is not called at all. -/
theorem geocoding_query_is_not_trimmed :
    (trim (lit " a ") = lit "a" ∧
      encodeURIComponent (trim (lit " a ")) = .ok (lit "a") ∧
      calls .geocoding (fetchWeather offlineHost (typed (lit " a "))) =
        [lit "https://api.openweathermap.org/geo/1.0/direct?q=%20a%20&limit=1&appid=undefined"] ∧
      geocodingUrl offlineHost (lit "a") ∉
        calls .geocoding (fetchWeather offlineHost (typed (lit " a ")))) ∧
    (trim [0xD83C] ≠ [] ∧ calls .geocoding (fetchWeather offlineHost (typed [0xD83C])) = []) :=
  ⟨⟨rfl, rfl, rfl, by decide⟩, by decide, rfl⟩

/-- C10 (amended): for every query text whose trimmed form is non-empty and
which `encodeURIComponent` accepts, the geocoding collaborator is called exactly
once, with the URL-escaped form of the text as typed (not trimmed) as its query
parameter and with result limit 1. -/
theorem geocoding_request_carries_escaped_text (h : Host) (s : AppState) (q : JSString)
    (hs : trim s.city ≠ []) (hq : encodeURIComponent s.city = .ok q) :
    calls .geocoding (fetchWeather h s) =
      [lit "https://api.openweathermap.org/geo/1.0/direct?q=" ++ q ++ lit "&limit=1&appid=" ++
        apiKeyText h] := by
  rcases fetchWeather_cases h s hs with ⟨⟨e, he⟩, _⟩ | ⟨q2, hq2, hrest⟩
  · simp [hq] at he
  · have hqq : q2 = q := by simpa [hq] using hq2.symm
    subst hqq
    rcases hrest with ⟨_, ht⟩ | ⟨st1, g, hf, ⟨_, ht⟩ | ⟨_, _, ht⟩ |
      ⟨w, _, _, ⟨_, ht⟩ | ⟨st2, wd, hw, ht⟩⟩⟩ <;> simp [ht, calls, geocodingUrl]

theorem geocoding_request_carries_escaped_text_witness :
    trim (typed (lit " São Paulo ")).city ≠ [] ∧
      encodeURIComponent (typed (lit " São Paulo ")).city = .ok (lit "%20S%C3%A3o%20Paulo%20") ∧
      calls .geocoding (fetchWeather emptyHost (typed (lit " São Paulo "))) =
        [lit "https://api.openweathermap.org/geo/1.0/direct?q=" ++ lit "%20S%C3%A3o%20Paulo%20" ++
          lit "&limit=1&appid=" ++ apiKeyText emptyHost] :=
  ⟨by decide, rfl,
    geocoding_request_carries_escaped_text emptyHost (typed (lit " São Paulo "))
      (lit "%20S%C3%A3o%20Paulo%20") (by decide) rfl⟩

/-- C7 (counterexample): after the lookup of `Oslo` against `forecastHost` the
stored weather holds all 30 hourly and all 9 daily entries of the response,
not the first 24 and the first 7. -/
theorem stored_forecast_is_not_truncated :
    member (run (typed (lit "Oslo")) (fetchWeather forecastHost (typed (lit "Oslo")))).weather (lit "hourly") = .arr longHourly ∧
      longHourly.length = 30 ∧ longHourly ≠ longHourly.take (min longHourly.length 24) ∧
      member (run (typed (lit "Oslo")) (fetchWeather forecastHost (typed (lit "Oslo")))).weather (lit "daily") = .arr longDaily ∧
      longDaily.length = 9 ∧ longDaily ≠ longDaily.take (min longDaily.length 7) :=
  ⟨rfl, rfl, fun h => absurd (congrArg List.length h) (by decide), rfl, rfl,
    fun h => absurd (congrArg List.length h) (by decide)⟩

/-- C7 (amended): for every lookup whose weather request is answered by a
payload with an hourly list of `n` entries and a daily list of `m` entries, the
payload is stored unchanged, with all `n` and all `m` entries. The truncation
is applied when the dashboard is rendered: the hourly strip maps over exactly
the first `min n 24` entries of the hourly list and the 7-day strip over the
first `min m 7` entries of the daily list, each a prefix of the response list,
and whenever the dashboard renders, its hourly strip has `min n 24` cells and
its 7-day strip `min m 7` cells, one per entry, in the original order. -/
theorem forecast_strips_render_prefixes (h : Host) (s : AppState) (url : JSString) (st : Nat)
    (w : JSValue) (hourly daily : List JSValue) (loc : Locale) (d : Dashboard)
    (hs : trim s.city ≠ [])
    (hcall : url ∈ calls .oneCall (fetchWeather h s))
    (hresp : h.fetch url = .response st (some w))
    (hh : member w (lit "hourly") = .arr hourly)
    (hd : member w (lit "daily") = .arr daily)
    (hrender : renderDashboard h.numerics loc (run s (fetchWeather h s)) = some d) :
    ((run s (fetchWeather h s)).weather = w ∧
      (run s (fetchWeather h s)).error = [] ∧
      (run s (fetchWeather h s)).isLoading = false ∧
      member (run s (fetchWeather h s)).weather (lit "hourly") = .arr hourly ∧
      member (run s (fetchWeather h s)).weather (lit "daily") = .arr daily) ∧
    (hourlyEntries (run s (fetchWeather h s)).weather =
        .ok (hourly.take (min hourly.length 24)) ∧
      hourly.take (min hourly.length 24) <+: hourly ∧
      d.hourly.length = min hourly.length 24 ∧
      List.Forall₂ (fun e c => hourCell h.numerics loc e = some c)
        (hourly.take (min hourly.length 24)) d.hourly) ∧
    (dailyEntries (run s (fetchWeather h s)).weather = .ok (daily.take (min daily.length 7)) ∧
      daily.take (min daily.length 7) <+: daily ∧
      d.daily.length = min daily.length 7 ∧
      List.Forall₂ (fun e c => dayCell h.numerics loc e = some c)
        (daily.take (min daily.length 7)) d.daily) := by
  have hstored : (run s (fetchWeather h s)).weather = w ∧
      (run s (fetchWeather h s)).error = [] ∧ (run s (fetchWeather h s)).isLoading = false := by
    rcases fetchWeather_cases h s hs with ⟨_, ht⟩ | ⟨q, _, ⟨_, ht⟩ | ⟨st1, g, hf, hg⟩⟩
    · simp [ht, calls] at hcall
    · simp [ht, calls] at hcall
    · rcases hg with ⟨_, ht⟩ | ⟨_, _, ht⟩ | ⟨u, _, _, ⟨hfail, ht⟩ | ⟨st2, wd, hw, ht⟩⟩
      · simp [ht, calls] at hcall
      · simp [ht, calls] at hcall
      · simp [ht, calls] at hcall
        subst hcall
        rcases hfail with hfail | ⟨st3, hfail⟩ <;> simp [hresp] at hfail
      · simp [ht, calls] at hcall
        subst hcall
        simp [hresp] at hw
        simp [ht, run, Effect.apply, hw.2]
  obtain ⟨fields, hobj⟩ : ∃ fields, w = .obj fields := by
    cases w with
    | obj fields => exact ⟨fields, rfl⟩
    | arr xs => simp only [member] at hh; split at hh <;> simp at hh
    | str x => simp only [member] at hh; split at hh <;> simp at hh
    | _ => simp [member] at hh
  have hn : isNullish w = false := by simp [hobj, isNullish]
  have hhe : hourlyEntries (run s (fetchWeather h s)).weather = .ok (hourly.take 24) := by
    rw [hstored.1]
    simp [hourlyEntries, optProp, hn, hh, sliceForMap]
  have hde : dailyEntries (run s (fetchWeather h s)).weather = .ok (daily.take 7) := by
    rw [hstored.1]
    simp [dailyEntries, optProp, hn, hd, sliceForMap]
  obtain ⟨hhs, hds⟩ := renderDashboard_strips h.numerics loc _ d hrender
  have hhm : mapCells (hourCell h.numerics loc) (hourly.take 24) = some d.hourly := by
    simpa [hourlyStrip, hhe] using hhs
  have hdm : mapCells (dayCell h.numerics loc) (daily.take 7) = some d.daily := by
    simpa [dailyStrip, hde] using hds
  refine ⟨⟨hstored.1, hstored.2.1, hstored.2.2, ?_, ?_⟩, ⟨?_, List.take_prefix _ _, ?_, ?_⟩,
    ⟨?_, List.take_prefix _ _, ?_, ?_⟩⟩
  · rw [hstored.1, hh]
  · rw [hstored.1, hd]
  · rw [take_min_length, hhe]
  · rw [mapCells_length _ _ _ hhm]
    simp [List.length_take, Nat.min_comm]
  · rw [take_min_length]
    exact mapCells_forall2 _ _ _ hhm
  · rw [take_min_length, hde]
  · rw [mapCells_length _ _ _ hdm]
    simp [List.length_take, Nat.min_comm]
  · rw [take_min_length]
    exact mapCells_forall2 _ _ _ hdm

theorem forecast_strips_render_prefixes_witness :
    trim (typed (lit "Oslo")).city ≠ [] ∧
      (oneCallUrl forecastHost (lit "60") (lit "11")) ∈ calls .oneCall (fetchWeather forecastHost (typed (lit "Oslo"))) ∧
      forecastHost.fetch (oneCallUrl forecastHost (lit "60") (lit "11")) = .response 200 (some longForecast) ∧
      member longForecast (lit "hourly") = .arr longHourly ∧
      member longForecast (lit "daily") = .arr longDaily ∧
      renderDashboard forecastHost.numerics plainLocale (run (typed (lit "Oslo")) (fetchWeather forecastHost (typed (lit "Oslo")))) = some longDashboard ∧
      ((run (typed (lit "Oslo")) (fetchWeather forecastHost (typed (lit "Oslo")))).weather = longForecast ∧
        (run (typed (lit "Oslo")) (fetchWeather forecastHost (typed (lit "Oslo")))).error = [] ∧
        (run (typed (lit "Oslo")) (fetchWeather forecastHost (typed (lit "Oslo")))).isLoading = false ∧
        member (run (typed (lit "Oslo")) (fetchWeather forecastHost (typed (lit "Oslo")))).weather (lit "hourly") = .arr longHourly ∧
        member (run (typed (lit "Oslo")) (fetchWeather forecastHost (typed (lit "Oslo")))).weather (lit "daily") = .arr longDaily) ∧
      (hourlyEntries (run (typed (lit "Oslo")) (fetchWeather forecastHost (typed (lit "Oslo")))).weather = .ok (longHourly.take (min longHourly.length 24)) ∧
        longHourly.take (min longHourly.length 24) <+: longHourly ∧
        longDashboard.hourly.length = min longHourly.length 24 ∧
        List.Forall₂ (fun e c => hourCell forecastHost.numerics plainLocale e = some c)
          (longHourly.take (min longHourly.length 24)) longDashboard.hourly) ∧
      (dailyEntries (run (typed (lit "Oslo")) (fetchWeather forecastHost (typed (lit "Oslo")))).weather = .ok (longDaily.take (min longDaily.length 7)) ∧
        longDaily.take (min longDaily.length 7) <+: longDaily ∧
        longDashboard.daily.length = min longDaily.length 7 ∧
        List.Forall₂ (fun e c => dayCell forecastHost.numerics plainLocale e = some c)
          (longDaily.take (min longDaily.length 7)) longDashboard.daily) :=
  ⟨by decide, by decide, rfl, rfl, rfl, loadedOslo_renders,
    forecast_strips_render_prefixes forecastHost (typed (lit "Oslo")) (oneCallUrl forecastHost (lit "60") (lit "11")) 200 longForecast
      longHourly longDaily plainLocale longDashboard (by decide) (by decide) rfl rfl rfl
      loadedOslo_renders⟩

/-- C4 (counterexample): a geocoding request refused with status 401 and a JSON
error object ends with `error = "City not found"`, not with the fetch-failure
message; a weather request refused the same way ends with the error object
stored as `weather` and no error, which is the loaded state, and the dashboard
renders from it. -/
theorem refused_request_is_not_fetch_failure :
    ((run (typed (lit "London")) (fetchWeather unauthorizedHost (typed (lit "London")))).error = lit "City not found" ∧
      lit "City not found" ≠ lit "Failed to fetch weather data") ∧
    ((run (typed (lit "London")) (fetchWeather weatherRefusedHost (typed (lit "London")))) = ⟨lit "London", errorBody, [], false⟩ ∧
      takesDashboardBranch (run (typed (lit "London")) (fetchWeather weatherRefusedHost (typed (lit "London")))) = true ∧
      (renderDashboard weatherRefusedHost.numerics plainLocale (run (typed (lit "London")) (fetchWeather weatherRefusedHost (typed (lit "London"))))).isSome = true) :=
  ⟨⟨rfl, by decide⟩, rfl, rfl, rfl⟩

/-- C4 (amended): for every non-blank query the HTTP status of a response is
never inspected: replacing the statuses leaves the run unchanged, so a non-2xx
response is handled as a 2xx response with the same body. A geocoding body that
is `null` ends with `error = "Failed to fetch weather data"` and `weather = null`;
a geocoding body that is a JSON object without a `length` member ends with
`error = "City not found"`, `weather = null` and no weather call; a weather body
that is a JSON object is stored as `weather` with `error = ""`, which is the
loaded state, and the test of line 57 then selects the dashboard branch. -/
theorem status_is_not_inspected (h : Host) (s : AppState) (f : JSString → Nat → Nat)
    (hs : trim s.city ≠ []) :
    fetchWeather (h.withStatus f) s = fetchWeather h s ∧
    (∀ url st, url ∈ calls .geocoding (fetchWeather h s) →
      h.fetch url = .response st (some .null) →
      (run s (fetchWeather h s)).error = lit "Failed to fetch weather data" ∧
        (run s (fetchWeather h s)).weather = .null) ∧
    (∀ url st fields, url ∈ calls .geocoding (fetchWeather h s) →
      h.fetch url = .response st (some (.obj fields)) → lookup (lit "length") fields = none →
      (run s (fetchWeather h s)).error = lit "City not found" ∧
        (run s (fetchWeather h s)).weather = .null ∧
        calls .oneCall (fetchWeather h s) = []) ∧
    (∀ url st fields, url ∈ calls .oneCall (fetchWeather h s) →
      h.fetch url = .response st (some (.obj fields)) →
      (run s (fetchWeather h s)).error = [] ∧
        (run s (fetchWeather h s)).weather = .obj fields ∧
        takesDashboardBranch (run s (fetchWeather h s)) = true) := by
  refine ⟨fetchWeather_withStatus h f s, ?_, ?_, ?_⟩
  · intro url st hcall hresp
    rcases fetchWeather_cases h s hs with ⟨_, ht⟩ | ⟨q, _, ⟨_, ht⟩ | ⟨st1, g, hf, hg⟩⟩
    · simp [ht, run, Effect.apply]
    · simp [ht, run, Effect.apply]
    · have hg2 : g = .null := by
        rcases hg with ⟨_, ht⟩ | ⟨_, _, ht⟩ | ⟨w, _, _, ⟨_, ht⟩ | ⟨_, _, _, ht⟩⟩ <;>
          simp [ht, calls] at hcall <;> subst hcall <;> simp [hf] at hresp <;> exact hresp.2
      subst hg2
      rcases hg with ⟨_, ht⟩ | ⟨hn, _, _⟩ | ⟨w, hn, _, _⟩
      · simp [ht, run, Effect.apply]
      · simp [isNullish] at hn
      · simp [isNullish] at hn
  · intro url st fields hcall hresp hlen
    rcases fetchWeather_cases h s hs with ⟨_, ht⟩ | ⟨q, _, ⟨hf, ht⟩ | ⟨st1, g, hf, hg⟩⟩
    · simp [ht, calls] at hcall
    · simp [ht, calls] at hcall
      subst hcall
      rcases hf with hf | ⟨st2, hf⟩ <;> simp [hf] at hresp
    · have hg2 : g = .obj fields := by
        rcases hg with ⟨_, ht⟩ | ⟨_, _, ht⟩ | ⟨w, _, _, ⟨_, ht⟩ | ⟨_, _, _, ht⟩⟩ <;>
          simp [ht, calls] at hcall <;> subst hcall <;> simp [hf] at hresp <;> exact hresp.2
      subst hg2
      rcases hg with ⟨hg, _⟩ | ⟨_, _, ht⟩ | ⟨w, _, hl, _⟩
      · simp [isNullish, member, hlen, truthy] at hg
      · simp [ht, calls, run, Effect.apply]
      · simp [member, hlen, truthy] at hl
  · intro url st fields hcall hresp
    rcases fetchWeather_cases h s hs with ⟨_, ht⟩ | ⟨q, _, ⟨_, ht⟩ | ⟨st1, g, hf, hg⟩⟩
    · simp [ht, calls] at hcall
    · simp [ht, calls] at hcall
    · rcases hg with ⟨_, ht⟩ | ⟨_, _, ht⟩ | ⟨u, _, _, ⟨hfail, ht⟩ | ⟨st2, wd, hw, ht⟩⟩
      · simp [ht, calls] at hcall
      · simp [ht, calls] at hcall
      · simp [ht, calls] at hcall
        subst hcall
        rcases hfail with hfail | ⟨st3, hfail⟩ <;> simp [hresp] at hfail
      · simp [ht, calls] at hcall
        subst hcall
        simp [hresp] at hw
        simp [ht, run, Effect.apply, ← hw.2, takesDashboardBranch, truthy]

theorem status_is_not_inspected_witness :
    trim (typed (lit "London")).city ≠ [] ∧
      fetchWeather (unauthorizedHost.withStatus fun _ _ => 200) (typed (lit "London")) =
        fetchWeather unauthorizedHost (typed (lit "London")) ∧
      ((run (typed (lit "London")) (fetchWeather unauthorizedHost (typed (lit "London")))).error = lit "City not found" ∧
        (run (typed (lit "London")) (fetchWeather unauthorizedHost (typed (lit "London")))).weather = .null ∧
        calls .oneCall (fetchWeather unauthorizedHost (typed (lit "London"))) = []) :=
  ⟨by decide,
    (status_is_not_inspected unauthorizedHost (typed (lit "London")) (fun _ _ => 200)
      (by decide)).1,
    (status_is_not_inspected unauthorizedHost (typed (lit "London")) (fun _ _ => 200)
      (by decide)).2.2.1 (geocodingUrl unauthorizedHost (lit "London")) 401
      [(lit "cod", .num (.fin 401)), (lit "message", .str (lit "Invalid API key"))]
      (by decide) rfl rfl⟩

/-- C8 (failing input): with a stored payload whose `current` object has no
`temp`, `wind_speed` or `humidity`, or that has no `current` at all, the
temperature is displayed as `NaN°C` and the wind as `NaN m/s`; only the humidity
falls back to `--%`. -/
theorem missing_temperature_displays_NaN (n : Numerics) :
    (temperatureText n (.obj [(lit "current", .obj [])]) = .ok (lit "NaN°C") ∧
      detailTemp n (.obj [(lit "current", .obj [])]) = .ok (lit "🌡️ Temp: NaN°C") ∧
      detailWind n (.obj [(lit "current", .obj [])]) = .ok (lit "💨 Wind: NaN m/s") ∧
      detailHumidity n (.obj [(lit "current", .obj [])]) = .ok (lit "💧 Humidity: --%")) ∧
    (temperatureText n (.obj []) = .ok (lit "NaN°C") ∧
      detailTemp n (.obj []) = .ok (lit "🌡️ Temp: NaN°C") ∧
      detailWind n (.obj []) = .ok (lit "💨 Wind: NaN m/s") ∧
      detailHumidity n (.obj []) = .ok (lit "💧 Humidity: --%")) :=
  ⟨⟨rfl, rfl, rfl, rfl⟩, rfl, rfl, rfl, rfl⟩

/-- C9 (failing input): an hourly or daily entry whose `weather` list is empty
gets the image address `.../wn/undefined.png`, with no fallback code, and so does
an entry whose first `weather` element has no `icon`; an entry without a
`weather` list makes the rendering throw `TypeError`. Only the
current-conditions image falls back to `01d`. -/
theorem entry_icon_has_no_fallback (n : Numerics) :
    hourlyEntries (.obj [(lit "current", .obj []), (lit "hourly", .arr [bareEntry (.arr [])])]) =
        .ok [bareEntry (.arr [])] ∧
      entryIconSrc n (bareEntry (.arr [])) =
        .ok (lit "https://openweathermap.org/img/wn/undefined.png") ∧
      entryIconSrc n (bareEntry (.arr [.obj [(lit "description", .str (lit "mist"))]])) =
        .ok (lit "https://openweathermap.org/img/wn/undefined.png") ∧
      entryIconSrc n (.obj [(lit "dt", .num (.fin 1700000000)), (lit "temp", .num (.fin 3))]) =
        .error .typeError ∧
      currentIconSrc n (.obj [(lit "current", .obj [(lit "weather", .arr [])])]) =
        .ok (lit "https://openweathermap.org/img/wn/01d@2x.png") :=
  ⟨rfl, rfl, rfl, rfl, rfl⟩

end Weather
